import Mathlib

/-!
Shallow embedding of `src/app.py`, the single source file of the
derelict-building restoration web app.  The pure computations (prompt
assembly, data-URI stripping, option lookup) are translated directly;
the effectful parts (the two outbound OpenAI HTTP calls, base64/PIL
image decoding, the SQLite insert and the result-file writes) are
modelled by an `Env` record that fixes the outcome of each effect, and
`generate_restoration` returns a `RunResult` recording every
externally visible action (calls made, rows inserted, files written,
payload returned).
-/

namespace Derelict

/-- Python `options : Dict[str, bool]`, modelled as an association list.
Lookup takes the first binding; Python dict keys are unique, so any
list without duplicate keys represents a dict. -/
abbrev Options := List (String × Bool)

/-- Python `options.get(key, default)`. -/
def optGetD (o : Options) (k : String) (d : Bool) : Bool :=
  match o.lookup k with
  | some v => v
  | none => d

/-- `OPENAI_API_KEY` constant (app.py line 26).  The embedding passes it
as an explicit parameter to `generate_restoration` so that
configurations where the credential is missing (empty) are
expressible; the source reads the module-level constant. -/
def OPENAI_API_KEY : String :=
  "xxxxxxxxxxxxxxxxxxxxxxxxxxxxxxxxxxxxxxxxxxxxxxxxxxxxxxxxxxxxxxxxxxxxxxxxxxx"

/-- `RESTORATION_TYPES` (app.py lines 31-34). -/
def RESTORATION_TYPES : List String :=
  ["Home Restoration", "Commercial Restoration"]

/-- `RESULTS_FOLDER` (app.py line 21). -/
def RESULTS_FOLDER : String := "/data/restoration_results"

/-- `RESTORATION_PROMPT` template (app.py lines 54-68), with its single
`str.format` placeholder kept literally. -/
def RESTORATION_PROMPT : String :=
  "\nCreate a photorealistic restoration of this derelict building, showing how it would look beautifully renovated and restored. \n{restoration_type_instructions}\n\nMaintain the same architectural style, building position, perspective, and surroundings, but transform the building into a pristine, restored condition.\n\nShow:\n- Repaired walls with fresh paint or restored original materials\n- New windows and doors\n- Fixed roof\n- Clean and well-maintained exterior\n- Attractive landscaping\n- Appropriate lighting\n- Overall appealing aesthetic that respects the original structure\n"

/-- `HOME_INSTRUCTIONS` (app.py lines 70-77). -/
def HOME_INSTRUCTIONS : String :=
  "\nStyle it as a beautiful residential home with:\n- Warm, inviting appearance\n- Residential-appropriate colors and finishes\n- Cozy exterior lighting\n- Home-style landscaping with garden elements\n- Suitable residential details like a mailbox, porch furniture, etc.\n"

/-- `COMMERCIAL_INSTRUCTIONS` (app.py lines 79-87). -/
def COMMERCIAL_INSTRUCTIONS : String :=
  "\nStyle it as an attractive commercial building with:\n- Professional, polished appearance\n- Business-appropriate signage (generic/neutral)\n- Commercial-grade windows and doors\n- Professional landscaping\n- Exterior lighting suitable for a business\n- Clean, accessible entrance area\n"

/-- app.py line 182: `restoration_type = "Home Restoration" if
options.get("home_restoration", True) else "Commercial Restoration"`. -/
def restorationTypeOf (options : Options) : String :=
  if optGetD options "home_restoration" true then "Home Restoration"
  else "Commercial Restoration"

/-- app.py lines 185-188: instruction block chosen by comparing the
restoration type label. -/
def instructionsOf (options : Options) : String :=
  if restorationTypeOf options = "Home Restoration" then HOME_INSTRUCTIONS
  else COMMERCIAL_INSTRUCTIONS

/-- app.py lines 191-193: `prompt = RESTORATION_PROMPT.format(...)`,
a single-placeholder substitution. -/
def promptOf (options : Options) : String :=
  RESTORATION_PROMPT.replace "{restoration_type_instructions}" (instructionsOf options)

/-- Python `"," in image_data` (app.py line 199), on the char list of
the string. -/
def hasComma : List Char → Bool
  | [] => false
  | c :: cs => if c = ',' then true else hasComma cs

/-- Chars after the first comma: `image_data.split(",", 1)[1]`
(app.py line 203). -/
def afterFirstComma : List Char → List Char
  | [] => []
  | c :: cs => if c = ',' then cs else afterFirstComma cs

/-- app.py lines 199-203: strip a data-URI header, keeping only the
base64 payload after the first comma; a comma-free string is used
unchanged. -/
def stripDataUri (s : String) : String :=
  if hasComma s.data then String.mk (afterFirstComma s.data) else s

/-- Chunks of the `enhanced_prompt` f-string (app.py lines 256-275). -/
def ENHANCED_HEAD : String :=
  "Edit this image to show this derelict building fully restored.\n\n"

def ENHANCED_MID1 : String := "\n\nRestoration type: "

def ENHANCED_MID2 : String :=
  "\n\nMake these specific changes to restore the building:\n- Repair all damaged walls and surfaces with appropriate materials\n- Replace broken windows with clean, new ones\n- Fix the roof completely\n- Restore/replace damaged doors\n- Clean up and restore all exterior architectural details\n- Add appropriate landscaping around the building\n- Remove debris, graffiti, and signs of neglect\n- Add appropriate lighting features\n\n"

def ENHANCED_TAIL : String :=
  "\n\nIMPORTANT: Maintain the EXACT SAME building structure, position, perspective, and location. Only transform it from derelict to restored condition - do not change the architectural style or fundamental structure.\n"

/-- The stage-two `enhanced_prompt` f-string (app.py lines 256-275). -/
def enhancedPrompt (building_description restoration_type restoration_type_instructions : String) : String :=
  ENHANCED_HEAD ++ building_description ++ ENHANCED_MID1 ++ restoration_type ++
    ENHANCED_MID2 ++ restoration_type_instructions ++ ENHANCED_TAIL

/-- Outcome of the stage-one `requests.post` to the chat-completions
endpoint: a transport failure, or a response with an HTTP status and
the extracted `choices[0].message.content` (`none` models a body from
which that extraction raises). -/
inductive VisionOutcome where
  | netFail (msg : String)
  | reply (status : Nat) (content : Option String)
deriving DecidableEq

/-- Outcome of the stage-two `requests.post` to the images/edits
endpoint: transport failure, or status plus extracted
`data[0].b64_json` (`none` models a body where extraction raises). -/
inductive EditOutcome where
  | netFail (msg : String)
  | reply (status : Nat) (b64JSON : Option String)
deriving DecidableEq

/-- Outcome of `save_results_file` (app.py lines 107-132):
`mkdirFail` models `os.makedirs` raising (it sits outside the
function's try block, so the exception propagates); `writeFail` models
a write inside the try block raising (caught, function returns
`False`); `ok` models all three writes succeeding. -/
inductive FileOutcome where
  | mkdirFail (msg : String)
  | writeFail
  | ok
deriving DecidableEq

/-- Environment fixing each effect's outcome for one run:
`freshId` is the `uuid.uuid4().hex` drawn at line 179, `now` the
`time.strftime` timestamp, `imageDecodeOk` whether
`base64.b64decode`/`PIL.Image.open` of the payload succeed (lines
278-295), and `dbWriteOk` whether the SQLite connect/insert/commit
block succeeds (lines 352-365). -/
structure Env where
  freshId : String
  now : String
  vision : VisionOutcome
  imageDecodeOk : Bool
  edit : EditOutcome
  dbWriteOk : Bool
  fileOutcome : FileOutcome
deriving DecidableEq

/-- One row of the `results` table (app.py lines 146-157).  The INSERT
at lines 359-362 names only the first five columns; `status` and
`feedback` take their SQL defaults. -/
structure Row where
  id : String
  restoration_type : String
  prompt : String
  original_image_path : String
  restored_image_path : String
  status : String
  feedback : Option String
deriving DecidableEq

/-- The `result_content` dict passed to `save_results_file`
(app.py lines 368-372). -/
structure ResultContent where
  restoration_type : String
  prompt : String
  building_description : String
deriving DecidableEq

/-- The `result_data` JSON object written to `{result_id}.json`
(app.py lines 111-115). -/
structure ResultFileData where
  id : String
  result : ResultContent
  created_at : String
deriving DecidableEq

/-- The dict returned by `generate_restoration`: either the success
record (lines 378-385) or the error payload (lines 389-392). -/
inductive Payload where
  | ok (id restoration_type original_image restored_image prompt building_description : String)
  | err (error : String) (id : String)
deriving DecidableEq

/-- The `id` field, present in both payload shapes. -/
def Payload.pid : Payload → String
  | .ok i _ _ _ _ _ => i
  | .err _ i => i

/-- Whether the payload is a success record (no `error` key). -/
def Payload.isOk : Payload → Bool
  | .ok _ _ _ _ _ _ => true
  | .err _ _ => false

/-- Everything externally visible about one `generate_restoration`
run: which outbound calls were made and with what, the rows this run
inserted, the files it wrote, and the returned payload. -/
structure RunResult where
  visionCalled : Bool
  visionAuth : Option String
  visionImagePayload : Option String
  editCalled : Bool
  editPrompt : Option String
  db : List Row
  resultFile : Option ResultFileData
  origImageFile : Option String
  restoredImageFile : Option String
  payload : Payload
deriving DecidableEq

/-- A run that ends in the outer `except` (app.py lines 387-392)
before any persistence happened: error payload, nothing stored. -/
def errRun (msg id : String) (auth img : Option String)
    (eCalled : Bool) (ePrompt : Option String) : RunResult :=
  { visionCalled := true
    visionAuth := auth
    visionImagePayload := img
    editCalled := eCalled
    editPrompt := ePrompt
    db := []
    resultFile := none
    origImageFile := none
    restoredImageFile := none
    payload := .err msg id }

/-- `requests.Response.raise_for_status` raises exactly for client and
server error statuses, 400-599. -/
def raiseForStatusRaises (s : Nat) : Bool :=
  decide (400 ≤ s ∧ s < 600)

/-- Stage one, app.py lines 241-249: post to chat completions,
`raise_for_status`, extract `choices[0].message.content`, and raise
`ValueError` when the description is falsy (empty). -/
def visionPhase : VisionOutcome → Except String String
  | .netFail m => .error m
  | .reply s c =>
    if raiseForStatusRaises s then .error ("HTTP error " ++ toString s)
    else
      match c with
      | none => .error "missing choices content"
      | some d =>
        if d = "" then .error "Failed to get building description from the vision model"
        else .ok d

/-- Stage two, app.py lines 315-346: post the multipart edit request;
any non-200 status or missing `data[0].b64_json` ends in the
re-raised `ValueError` of the inner except block. -/
def editPhase : EditOutcome → Except String String
  | .netFail m => .error ("GPT Image editing failed: " ++ m)
  | .reply s b =>
    if s ≠ 200 then .error ("GPT Image API error: HTTP " ++ toString s)
    else
      match b with
      | none => .error "GPT Image editing failed: missing b64_json"
      | some r => .ok r

/-- True when the phase ended in a raised exception. -/
def phaseFailed (e : Except String String) : Bool :=
  match e with
  | .error _ => true
  | .ok _ => false

/-- Shallow embedding of `generate_restoration` (app.py lines
168-392).  `api_key` stands for the module constant
`OPENAI_API_KEY`; `env` fixes the outcome of each effect. -/
def generate_restoration (api_key image_data0 : String) (options : Options)
    (env : Env) : RunResult :=
  let result_id := env.freshId
  let restoration_type := restorationTypeOf options
  let restoration_type_instructions := instructionsOf options
  let _prompt := promptOf options
  let image_data := stripDataUri image_data0
  let auth : Option String := some ("Bearer " ++ api_key)
  let img : Option String := some image_data
  match visionPhase env.vision with
  | .error m => errRun m result_id auth img false none
  | .ok building_description =>
    let enhanced_prompt :=
      enhancedPrompt building_description restoration_type restoration_type_instructions
    if env.imageDecodeOk = false then
      errRun "Invalid base64-encoded string" result_id auth img false none
    else
      match editPhase env.edit with
      | .error m => errRun m result_id auth img true (some enhanced_prompt)
      | .ok restored_image_b64 =>
        let original_path := RESULTS_FOLDER ++ "/" ++ result_id ++ "_original.jpg"
        let restored_path := RESULTS_FOLDER ++ "/" ++ result_id ++ "_restored.jpg"
        if env.dbWriteOk = false then
          errRun "Error saving to database" result_id auth img true (some enhanced_prompt)
        else
          let row : Row :=
            ⟨result_id, restoration_type, enhanced_prompt,
              original_path, restored_path, "generated", none⟩
          let okPayload : Payload :=
            .ok result_id restoration_type image_data restored_image_b64
              enhanced_prompt building_description
          match env.fileOutcome with
          | .mkdirFail m =>
            { visionCalled := true, visionAuth := auth, visionImagePayload := img
              editCalled := true, editPrompt := some enhanced_prompt
              db := [row], resultFile := none
              origImageFile := none, restoredImageFile := none
              payload := .err m result_id }
          | .writeFail =>
            { visionCalled := true, visionAuth := auth, visionImagePayload := img
              editCalled := true, editPrompt := some enhanced_prompt
              db := [row], resultFile := none
              origImageFile := none, restoredImageFile := none
              payload := okPayload }
          | .ok =>
            { visionCalled := true, visionAuth := auth, visionImagePayload := img
              editCalled := true, editPrompt := some enhanced_prompt
              db := [row]
              resultFile := some ⟨result_id,
                ⟨restoration_type, enhanced_prompt, building_description⟩, env.now⟩
              origImageFile := some image_data
              restoredImageFile := some restored_image_b64
              payload := okPayload }

/-- Form data of the POST `/restore` request, modelled like `Options`. -/
abbrev FormData := List (String × String)

/-- Python `form_data.get(key, default)`. -/
def formGetD (form : FormData) (k d : String) : String :=
  match form.lookup k with
  | some v => v
  | none => d

/-- The HTML fragment returned by the `/restore` endpoint: either an
error alert div or the restoration result markup. -/
inductive RestoreResponse where
  | errorHtml (msg : String)
  | resultHtml (original restored restoration_type building_description : String)
deriving DecidableEq

/-- Result of one `/restore` request: the run of
`generate_restoration`, when it was invoked at all, and the response. -/
structure PipelineResult where
  invoked : Option RunResult
  response : RestoreResponse
deriving DecidableEq

/-- Whether the pipeline made the stage-one outbound call. -/
def PipelineResult.visionCalled (p : PipelineResult) : Bool :=
  match p.invoked with
  | none => false
  | some r => r.visionCalled

/-- Whether the pipeline made the stage-two outbound call. -/
def PipelineResult.editCalled (p : PipelineResult) : Bool :=
  match p.invoked with
  | none => false
  | some r => r.editCalled

/-- Rows the pipeline inserted into the results table. -/
def PipelineResult.dbRows (p : PipelineResult) : List Row :=
  match p.invoked with
  | none => []
  | some r => r.db

/-- The JSON result file the pipeline wrote, if any. -/
def PipelineResult.resultFileWritten (p : PipelineResult) : Option ResultFileData :=
  match p.invoked with
  | none => none
  | some r => r.resultFile

/-- Shallow embedding of `api_restore_image` (app.py lines 907-990):
read the form, reject an empty/missing `image_data` before invoking
`generate_restoration`, otherwise build the options dict, invoke, and
render the payload. -/
def api_restore_image (form : FormData) (env : Env) : PipelineResult :=
  let image_data := formGetD form "image_data" ""
  let restoration_type := formGetD form "restoration_type" "home"
  if image_data = "" then
    { invoked := none, response := .errorHtml "No image data provided" }
  else
    let options : Options :=
      [("home_restoration", restoration_type == "home"),
       ("commercial_restoration", restoration_type == "commercial")]
    let r := generate_restoration OPENAI_API_KEY image_data options env
    match r.payload with
    | .err m _ => { invoked := some r, response := .errorHtml m }
    | .ok _ rt orig rest _ desc =>
      { invoked := some r, response := .resultHtml orig rest rt desc }

/-- The INSERT of app.py lines 359-362 against a table state: the
`id` column is PRIMARY KEY, so a duplicate id makes the statement
raise (`none`); otherwise the row is appended with the column
defaults `status='generated'`, `feedback=NULL` (lines 153-154). -/
def dbInsert (db : List Row) (id restoration_type prompt original_image_path
    restored_image_path : String) : Option (List Row) :=
  if (db.map Row.id).contains id then none
  else
    some (db ++ [⟨id, restoration_type, prompt, original_image_path,
      restored_image_path, "generated", none⟩])

/-- Reachable states of the results table: `setup_database` creates it
empty, and the INSERT above is the only statement in the source that
modifies it (there is no UPDATE or DELETE anywhere in app.py). -/
inductive Reachable : List Row → Prop
  | init : Reachable []
  | insert (db db2 : List Row) (id rt p op rp : String)
      (hr : Reachable db) (h : dbInsert db id rt p op rp = some db2) :
      Reachable db2

/-- The claim C2 says "2xx"; this predicate is written from that claim
wording, to be compared with the failure test the code actually
performs (`raise_for_status`, which raises only for 400-599). -/
def is2xxStatus (s : Nat) : Bool :=
  decide (200 ≤ s ∧ s < 300)

/-- Environment for the C1 witness: the vision call fails at the
transport level. -/
def envC1 : Env :=
  { freshId := "id-c1", now := "2025-01-01 00:00:00"
    vision := .netFail "connection refused", imageDecodeOk := true
    edit := .reply 200 (some "B64"), dbWriteOk := true, fileOutcome := .ok }

/-- Environment for the C2 counterexample: the vision endpoint answers
with HTTP 300 (not auto-followed as a redirect, not raised by
`raise_for_status`) and a usable body. -/
def env300 : Env :=
  { freshId := "id-c2", now := "2025-01-01 00:00:00"
    vision := .reply 300 (some "desc300"), imageDecodeOk := true
    edit := .reply 200 (some "B64"), dbWriteOk := true, fileOutcome := .ok }

/-- Environment for the C2 witness: a fully successful run. -/
def envC2ok : Env :=
  { freshId := "id-c2w", now := "2025-01-01 00:00:00"
    vision := .reply 200 (some "a stone cottage"), imageDecodeOk := true
    edit := .reply 200 (some "B64"), dbWriteOk := true, fileOutcome := .ok }

/-- Environment for the C3 counterexample: both external calls
succeed, the database write raises. -/
def envDbFail : Env :=
  { freshId := "id-c3", now := "2025-01-01 00:00:00"
    vision := .reply 200 (some "a brick warehouse"), imageDecodeOk := true
    edit := .reply 200 (some "RESTOREDB64"), dbWriteOk := false, fileOutcome := .ok }

/-- Environment for the C3-amended witness: only the guarded file
writes fail. -/
def envFileFail : Env :=
  { freshId := "id-c3w", now := "2025-01-01 00:00:00"
    vision := .reply 200 (some "a chapel"), imageDecodeOk := true
    edit := .reply 200 (some "B64"), dbWriteOk := true, fileOutcome := .writeFail }

/-- Environment for the C4 witness; its content is irrelevant because
the request is rejected before any effect happens. -/
def envC4 : Env :=
  { freshId := "id-c4", now := "2025-01-01 00:00:00"
    vision := .reply 200 (some "unused"), imageDecodeOk := true
    edit := .reply 200 (some "B64"), dbWriteOk := true, fileOutcome := .ok }

/-- Environment for the C8 counterexample: the provider answers the
vision call with 401, as it would for a missing credential. -/
def envC8 : Env :=
  { freshId := "id-c8", now := "2025-01-01 00:00:00"
    vision := .reply 401 none, imageDecodeOk := true
    edit := .netFail "unreachable", dbWriteOk := true, fileOutcome := .ok }

/-- Environment for the C9 witness: a fully successful run. -/
def envC9 : Env :=
  { freshId := "id-c9", now := "2025-01-01 00:00:00"
    vision := .reply 200 (some "the old mill"), imageDecodeOk := true
    edit := .reply 200 (some "B64"), dbWriteOk := true, fileOutcome := .ok }

/-- A concrete row for the C5 witness. -/
def rowW : Row :=
  ⟨"w1", "Home Restoration", "p", "/data/o.jpg", "/data/r.jpg", "generated", none⟩

end Derelict

namespace Derelict

/-! ### Helper lemmas -/

/-- String concatenation is associative (needed to read the spliced
stage-two prompt as prefix-description-suffix). -/
theorem string_append_assoc (a b c : String) : a ++ b ++ c = a ++ (b ++ c) := by
  apply String.ext
  simp [String.data_append, List.append_assoc]

/-- In every branch, the stage-one call carries the (possibly
comma-stripped) image payload. -/
theorem visionImagePayload_eq (k i : String) (o : Options) (e : Env) :
    (generate_restoration k i o e).visionImagePayload = some (stripDataUri i) := by
  unfold generate_restoration
  repeat' split <;> try simp [errRun]

/-- If the run wrote an original-image file, its content is the
stripped payload. -/
theorem origImageFile_eq (k i : String) (o : Options) (e : Env) (m : String)
    (h : (generate_restoration k i o e).origImageFile = some m) :
    m = stripDataUri i := by
  unfold generate_restoration at h
  repeat' split at h <;> try simp [errRun] at h
  all_goals exact h.symm

/-- The fields of a success payload are the computed ones. -/
theorem payload_ok_fields (k i : String) (o : Options) (e : Env)
    (pid rt orig rest p d : String)
    (h : (generate_restoration k i o e).payload = .ok pid rt orig rest p d) :
    pid = e.freshId ∧ rt = restorationTypeOf o ∧ orig = stripDataUri i := by
  unfold generate_restoration at h
  repeat' split at h <;> try simp [errRun] at h
  all_goals exact ⟨h.1.symm, h.2.1.symm, h.2.2.1.symm⟩

/-- The INSERT can only append to the table. -/
theorem dbInsert_extends (db db2 : List Row) (id rt p op rp : String)
    (h : dbInsert db id rt p op rp = some db2) : ∃ tail, db ++ tail = db2 := by
  unfold dbInsert at h
  split at h
  · exact absurd h (by simp)
  · exact ⟨_, by injection h⟩

/-- A list of chars holding a comma followed by anything does contain
a comma. -/
theorem hasComma_append_comma (a b : List Char) :
    hasComma (a ++ ',' :: b) = true := by
  induction a with
  | nil => simp [hasComma]
  | cons c cs ih =>
    rw [List.cons_append]
    by_cases hc : c = ',' <;> simp [hasComma, hc, ih]

/-- Dropping through a comma-free front reaches the chars after the
first comma. -/
theorem afterFirstComma_append (a b : List Char) (h : hasComma a = false) :
    afterFirstComma (a ++ ',' :: b) = b := by
  induction a with
  | nil => simp [afterFirstComma]
  | cons c cs ih =>
    by_cases hc : c = ','
    · simp [hasComma, hc] at h
    · have h2 : hasComma cs = false := by
        simpa [hasComma, hc] using h
      rw [List.cons_append]
      simp [afterFirstComma, hc, ih h2]

/-! ### Claim C1 -/

/-- Claim C1: if the vision call or the image-edit call fails
(transport failure, error status, unextractable or empty content),
the run persists no database row and writes no result files, and
returns an in-memory error payload whose id equals the identifier
drawn at the start of the request - the id a success record would have
used. -/
theorem external_failure_no_persistence (api_key image_data : String)
    (options : Options) (env : Env)
    (h : phaseFailed (visionPhase env.vision) = true ∨
      phaseFailed (editPhase env.edit) = true) :
    (generate_restoration api_key image_data options env).db = [] ∧
    (generate_restoration api_key image_data options env).resultFile = none ∧
    (generate_restoration api_key image_data options env).origImageFile = none ∧
    (generate_restoration api_key image_data options env).restoredImageFile = none ∧
    ((generate_restoration api_key image_data options env).payload).isOk = false ∧
    ((generate_restoration api_key image_data options env).payload).pid = env.freshId := by
  unfold generate_restoration
  cases hv : visionPhase env.vision with
  | error m => simp [errRun, Payload.isOk, Payload.pid]
  | ok d =>
    rcases h with h | h
    · rw [hv] at h; simp [phaseFailed] at h
    · cases he : editPhase env.edit with
      | error m =>
        by_cases hd : env.imageDecodeOk = false <;>
          simp [hd, errRun, he, Payload.isOk, Payload.pid]
      | ok r => rw [he] at h; simp [phaseFailed] at h

/-- Witness for C1 at a concrete failing vision call. -/
theorem external_failure_no_persistence_witness :
    (phaseFailed (visionPhase envC1.vision) = true ∨
      phaseFailed (editPhase envC1.edit) = true) ∧
    ((generate_restoration OPENAI_API_KEY "img" [] envC1).db = [] ∧
      (generate_restoration OPENAI_API_KEY "img" [] envC1).resultFile = none ∧
      (generate_restoration OPENAI_API_KEY "img" [] envC1).origImageFile = none ∧
      (generate_restoration OPENAI_API_KEY "img" [] envC1).restoredImageFile = none ∧
      ((generate_restoration OPENAI_API_KEY "img" [] envC1).payload).isOk = false ∧
      ((generate_restoration OPENAI_API_KEY "img" [] envC1).payload).pid = envC1.freshId) :=
  ⟨Or.inl (by decide),
    external_failure_no_persistence OPENAI_API_KEY "img" [] envC1 (Or.inl (by decide))⟩

/-! ### Claim C2 -/

/-- Counterexample to C2 as stated: a stage-one response with the
non-2xx status 300 still leads to the stage-two edit call, because
`raise_for_status` raises only for statuses 400-599. -/
theorem stage_two_attempted_after_non_2xx :
    env300.vision = VisionOutcome.reply 300 (some "desc300") ∧
    is2xxStatus 300 = false ∧
    (generate_restoration OPENAI_API_KEY "img" [] env300).editCalled = true := by
  refine ⟨rfl, by decide, by decide⟩

/-- Claim C2 (amended): the stage-two edit call is attempted only if
the stage-one vision call returned a response whose status is not in
400-599 (the only statuses `raise_for_status` raises for, rather than
only 2xx) with a non-empty description; and whenever stage two is
attempted, its prompt is the stage-two template with that description
spliced in verbatim. -/
theorem stage_two_gating_and_prompt_splice (api_key image_data : String)
    (options : Options) (env : Env)
    (h : (generate_restoration api_key image_data options env).editCalled = true) :
    ∃ s d, env.vision = VisionOutcome.reply s (some d) ∧
      raiseForStatusRaises s = false ∧ d ≠ "" ∧
      (generate_restoration api_key image_data options env).editPrompt =
        some (ENHANCED_HEAD ++ d ++
          (ENHANCED_MID1 ++ restorationTypeOf options ++ ENHANCED_MID2 ++
            instructionsOf options ++ ENHANCED_TAIL)) := by
  unfold generate_restoration at h ⊢
  cases hv : env.vision with
  | netFail m => rw [hv] at h; simp [visionPhase, errRun] at h
  | reply s c =>
    rw [hv] at h
    by_cases hs : raiseForStatusRaises s = true
    · simp [visionPhase, hs, errRun] at h
    · cases c with
      | none => simp [visionPhase, hs, errRun] at h
      | some d =>
        by_cases hde : d = ""
        · simp [visionPhase, hs, hde, errRun] at h
        · refine ⟨s, d, rfl, by simpa using hs, hde, ?_⟩
          by_cases hdec : env.imageDecodeOk = false
          · simp [visionPhase, hs, hde, hdec, errRun] at h
          · cases he : editPhase env.edit with
            | error m =>
              simp [visionPhase, hv, hs, hde, hdec, errRun, he, enhancedPrompt,
                string_append_assoc]
            | ok r =>
              by_cases hdb : env.dbWriteOk = false
              · simp [visionPhase, hv, hs, hde, hdec, errRun, he, hdb,
                  enhancedPrompt, string_append_assoc]
              · cases hf : env.fileOutcome <;>
                  simp [visionPhase, hv, hs, hde, hdec, errRun, he, hdb, hf,
                    enhancedPrompt, string_append_assoc]

/-- Witness for the amended C2 at a concrete run that reaches stage
two. -/
theorem stage_two_gating_and_prompt_splice_witness :
    (generate_restoration OPENAI_API_KEY "img" [] envC2ok).editCalled = true ∧
    (∃ s d, envC2ok.vision = VisionOutcome.reply s (some d) ∧
      raiseForStatusRaises s = false ∧ d ≠ "" ∧
      (generate_restoration OPENAI_API_KEY "img" [] envC2ok).editPrompt =
        some (ENHANCED_HEAD ++ d ++
          (ENHANCED_MID1 ++ restorationTypeOf [] ++ ENHANCED_MID2 ++
            instructionsOf [] ++ ENHANCED_TAIL))) :=
  ⟨by decide,
    stage_two_gating_and_prompt_splice OPENAI_API_KEY "img" [] envC2ok (by decide)⟩

/-! ### Claim C3 -/

/-- Counterexample to C3 as stated: when both external calls succeed
but the database write fails, the except block at app.py lines 374-376
re-raises, so the caller receives the error payload, not the computed
result. -/
theorem db_write_failure_returns_error_payload :
    phaseFailed (visionPhase envDbFail.vision) = false ∧
    phaseFailed (editPhase envDbFail.edit) = false ∧
    envDbFail.dbWriteOk = false ∧
    ((generate_restoration OPENAI_API_KEY "img" [] envDbFail).payload).isOk = false ∧
    ((generate_restoration OPENAI_API_KEY "img" [] envDbFail).payload).pid = "id-c3" := by
  decide

/-- Claim C3 (amended): the computed result survives only a failure of
the guarded writes inside `save_results_file`, which swallows its own
exceptions and returns False: when both external calls succeed, the
database write succeeds and the result-file write fails, the full
success payload is still returned rather than an error payload (a
database-write failure instead yields an error payload). -/
theorem file_write_failure_still_returns_result (api_key image_data : String)
    (options : Options) (env : Env) (desc restored : String)
    (hv : visionPhase env.vision = .ok desc)
    (hd : env.imageDecodeOk = true)
    (he : editPhase env.edit = .ok restored)
    (hdb : env.dbWriteOk = true)
    (hf : env.fileOutcome = .writeFail) :
    (generate_restoration api_key image_data options env).payload =
      Payload.ok env.freshId (restorationTypeOf options) (stripDataUri image_data)
        restored (enhancedPrompt desc (restorationTypeOf options) (instructionsOf options))
        desc ∧
    ((generate_restoration api_key image_data options env).payload).isOk = true := by
  unfold generate_restoration
  simp [hv, hd, he, hdb, hf, Payload.isOk]

/-- Witness for the amended C3 at a concrete failing file write. -/
theorem file_write_failure_still_returns_result_witness :
    visionPhase envFileFail.vision = .ok "a chapel" ∧
    envFileFail.fileOutcome = .writeFail ∧
    ((generate_restoration OPENAI_API_KEY "img" [] envFileFail).payload =
      Payload.ok envFileFail.freshId (restorationTypeOf []) (stripDataUri "img")
        "B64" (enhancedPrompt "a chapel" (restorationTypeOf []) (instructionsOf []))
        "a chapel" ∧
    ((generate_restoration OPENAI_API_KEY "img" [] envFileFail).payload).isOk = true) :=
  ⟨rfl, rfl,
    file_write_failure_still_returns_result OPENAI_API_KEY "img" [] envFileFail
      "a chapel" "B64" rfl rfl rfl rfl rfl⟩

/-! ### Claim C4 -/

/-- Claim C4: a missing or empty `image_data` form field is rejected
by the `/restore` endpoint with the input-error alert before
`generate_restoration` is ever invoked: no outbound call is made and
nothing is written. -/
theorem empty_image_rejected_before_invoke (form : FormData) (env : Env)
    (h : formGetD form "image_data" "" = "") :
    (api_restore_image form env).invoked = none ∧
    (api_restore_image form env).response = .errorHtml "No image data provided" ∧
    (api_restore_image form env).visionCalled = false ∧
    (api_restore_image form env).editCalled = false ∧
    (api_restore_image form env).dbRows = [] ∧
    (api_restore_image form env).resultFileWritten = none := by
  unfold api_restore_image
  simp [h, PipelineResult.visionCalled, PipelineResult.editCalled,
    PipelineResult.dbRows, PipelineResult.resultFileWritten]

/-- Witness for C4: a form without an `image_data` field. -/
theorem empty_image_rejected_before_invoke_witness :
    formGetD [("restoration_type", "home")] "image_data" "" = "" ∧
    ((api_restore_image [("restoration_type", "home")] envC4).invoked = none ∧
      (api_restore_image [("restoration_type", "home")] envC4).response =
        .errorHtml "No image data provided" ∧
      (api_restore_image [("restoration_type", "home")] envC4).visionCalled = false ∧
      (api_restore_image [("restoration_type", "home")] envC4).editCalled = false ∧
      (api_restore_image [("restoration_type", "home")] envC4).dbRows = [] ∧
      (api_restore_image [("restoration_type", "home")] envC4).resultFileWritten
        = none) :=
  ⟨by decide,
    empty_image_rejected_before_invoke [("restoration_type", "home")] envC4
      (by decide)⟩

/-! ### Claim C5 -/

/-- Claim C5: every reachable state of the results table holds only
rows with status "generated" and NULL feedback (the SQL column
defaults, since the INSERT names neither column), its ids are pairwise
distinct (PRIMARY KEY), and the only write path, the INSERT, strictly
appends; moreover every row `generate_restoration` itself inserts
carries status "generated" and NULL feedback. -/
theorem results_store_append_only_generated :
    (∀ db, Reachable db →
      (∀ r ∈ db, r.status = "generated" ∧ r.feedback = none) ∧
      (db.map Row.id).Nodup ∧
      (∀ db2 id rt p op rp, dbInsert db id rt p op rp = some db2 →
        ∃ tail, db ++ tail = db2)) ∧
    (∀ api_key image_data options env r,
      r ∈ (generate_restoration api_key image_data options env).db →
      r.status = "generated" ∧ r.feedback = none) := by
  constructor
  · intro db hr
    induction hr with
    | init =>
      exact ⟨by simp, by simp,
        fun db2 id rt p op rp h => dbInsert_extends _ _ _ _ _ _ _ h⟩
    | insert db db2 id rt p op rp hr h ih =>
      unfold dbInsert at h
      split at h
      · exact absurd h (by simp)
      · rename_i hni
        injection h with h2
        subst h2
        refine ⟨?_, ?_,
          fun db2 id rt p op rp h => dbInsert_extends _ _ _ _ _ _ _ h⟩
        · intro r hrmem
          rcases List.mem_append.1 hrmem with hm | hm
          · exact ih.1 r hm
          · simp at hm
            subst hm
            exact ⟨rfl, rfl⟩
        · have hnm : id ∉ db.map Row.id := fun hm => hni (List.elem_iff.2 hm)
          rw [List.map_append]
          simp [List.nodup_append, ih.2.1, hnm]
  · intro api_key image_data options env r hmem
    unfold generate_restoration at hmem
    repeat' split at hmem <;> try simp [errRun] at hmem
    all_goals (subst hmem; exact ⟨rfl, rfl⟩)

/-- Witness for C5 at a table state reached by one INSERT. -/
theorem results_store_append_only_generated_witness :
    Reachable [rowW] ∧ ([rowW].map Row.id).Nodup := by
  have hreach : Reachable [rowW] :=
    Reachable.insert [] [rowW] "w1" "Home Restoration" "p" "/data/o.jpg" "/data/r.jpg"
      Reachable.init (by decide)
  exact ⟨hreach, (results_store_append_only_generated.1 [rowW] hreach).2.1⟩

/-! ### Claim C6 -/

/-- Claim C6: the prompt builder is a deterministic total function of
the options map: the stage-one prompt built at app.py lines 182-193 is
the fixed `RESTORATION_PROMPT` template with `HOME_INSTRUCTIONS`
interpolated when `home_restoration` is true or absent and
`COMMERCIAL_INSTRUCTIONS` otherwise, and `restoration_type` is the
matching label of the fixed two-element `RESTORATION_TYPES` list. -/
theorem prompt_builder_deterministic (options : Options) :
    promptOf options =
      RESTORATION_PROMPT.replace "{restoration_type_instructions}"
        (if optGetD options "home_restoration" true then HOME_INSTRUCTIONS
          else COMMERCIAL_INSTRUCTIONS) ∧
    restorationTypeOf options =
      RESTORATION_TYPES.getD
        (if optGetD options "home_restoration" true then 0 else 1) "" := by
  cases hb : optGetD options "home_restoration" true <;>
    simp [promptOf, instructionsOf, restorationTypeOf, RESTORATION_TYPES, hb]

/-! ### Claim C7 -/

/-- Claim C7: unknown option keys are silently ignored: any two
options maps that agree on the value of `home_restoration` (absence
read as true) produce the same prompt and restoration type, whatever
other keys either map holds (including `commercial_restoration`) and
in whatever order; the builder is total, so no key can raise. -/
theorem unknown_option_keys_ignored (o1 o2 : Options)
    (h : optGetD o1 "home_restoration" true = optGetD o2 "home_restoration" true) :
    promptOf o1 = promptOf o2 ∧ restorationTypeOf o1 = restorationTypeOf o2 := by
  unfold promptOf instructionsOf restorationTypeOf
  rw [h]
  exact ⟨rfl, rfl⟩

/-- Witness for C7 at concrete maps: an unknown key and the
`commercial_restoration` key are both ignored. -/
theorem unknown_option_keys_ignored_witness :
    optGetD [("commercial_restoration", true), ("unknown_key", false)]
        "home_restoration" true
      = optGetD [] "home_restoration" true ∧
    promptOf [("commercial_restoration", true), ("unknown_key", false)] = promptOf [] ∧
    restorationTypeOf [("commercial_restoration", true), ("unknown_key", false)]
      = restorationTypeOf [] := by
  refine ⟨by decide, ?_, ?_⟩
  · exact (unknown_option_keys_ignored _ _ (by decide)).1
  · exact (unknown_option_keys_ignored _ _ (by decide)).2

/-! ### Claim C8 -/

/-- Counterexample to C8 as stated: with an empty (missing) credential
the request is not rejected before an external call - the stage-one
vision call is still made, carrying the empty credential in its
Authorization header. -/
theorem missing_credential_still_calls_api :
    (generate_restoration "" "imagedata" [] envC8).visionCalled = true ∧
    (generate_restoration "" "imagedata" [] envC8).visionAuth = some "Bearer " := by
  decide

/-- Claim C8 (amended): no code path inspects the credential: for
every credential value, including the empty one, `generate_restoration`
makes the stage-one vision call, passing the credential through in the
Authorization header; a bad credential surfaces only as the provider
HTTP error in the returned error payload, with no remediation hint. -/
theorem no_credential_check_vision_always_called (api_key image_data : String)
    (options : Options) (env : Env) :
    (generate_restoration api_key image_data options env).visionCalled = true ∧
    (generate_restoration api_key image_data options env).visionAuth =
      some ("Bearer " ++ api_key) := by
  unfold generate_restoration
  repeat' split <;> try simp [errRun]

/-! ### Claim C9 -/

/-- Claim C9: on a fully successful run, the JSON result file and the
inserted database row expose the same `id` and `restoration_type` as
the record returned to the caller. -/
theorem roundtrip_id_and_type (api_key image_data : String) (options : Options)
    (env : Env) (desc restored : String)
    (hv : visionPhase env.vision = .ok desc)
    (hd : env.imageDecodeOk = true)
    (he : editPhase env.edit = .ok restored)
    (hdb : env.dbWriteOk = true)
    (hf : env.fileOutcome = .ok) :
    ∃ f row,
      (generate_restoration api_key image_data options env).resultFile = some f ∧
      (generate_restoration api_key image_data options env).db = [row] ∧
      (generate_restoration api_key image_data options env).payload =
        Payload.ok env.freshId (restorationTypeOf options) (stripDataUri image_data)
          restored
          (enhancedPrompt desc (restorationTypeOf options) (instructionsOf options))
          desc ∧
      f.id = env.freshId ∧
      f.result.restoration_type = restorationTypeOf options ∧
      row.id = env.freshId ∧
      row.restoration_type = restorationTypeOf options := by
  refine ⟨⟨env.freshId,
      ⟨restorationTypeOf options,
        enhancedPrompt desc (restorationTypeOf options) (instructionsOf options),
        desc⟩, env.now⟩,
    ⟨env.freshId, restorationTypeOf options,
      enhancedPrompt desc (restorationTypeOf options) (instructionsOf options),
      RESULTS_FOLDER ++ "/" ++ env.freshId ++ "_original.jpg",
      RESULTS_FOLDER ++ "/" ++ env.freshId ++ "_restored.jpg",
      "generated", none⟩, ?_, ?_, ?_, rfl, rfl, rfl, rfl⟩ <;>
  · unfold generate_restoration
    simp [hv, hd, he, hdb, hf]

/-- Witness for C9 at a concrete successful run. -/
theorem roundtrip_id_and_type_witness :
    visionPhase envC9.vision = .ok "the old mill" ∧
    (∃ f row,
      (generate_restoration OPENAI_API_KEY "img" [] envC9).resultFile = some f ∧
      (generate_restoration OPENAI_API_KEY "img" [] envC9).db = [row] ∧
      (generate_restoration OPENAI_API_KEY "img" [] envC9).payload =
        Payload.ok envC9.freshId (restorationTypeOf []) (stripDataUri "img")
          "B64" (enhancedPrompt "the old mill" (restorationTypeOf []) (instructionsOf []))
          "the old mill" ∧
      f.id = envC9.freshId ∧
      f.result.restoration_type = restorationTypeOf [] ∧
      row.id = envC9.freshId ∧
      row.restoration_type = restorationTypeOf []) :=
  ⟨rfl,
    roundtrip_id_and_type OPENAI_API_KEY "img" [] envC9 "the old mill" "B64"
      rfl rfl rfl rfl rfl⟩

/-! ### Claim C10 -/

/-- Claim C10: when the inbound `image_data` holds a comma (data-URI
form), only the substring after the first comma is used - for the
stage-one call, for the saved original-image file, and for the
`original_image` field of the returned record; a comma-free string is
used unchanged. -/
theorem data_uri_comma_split (api_key : String) (options : Options) (env : Env)
    (a b : List Char) (t : String)
    (ha : hasComma a = false) (ht : hasComma t.data = false) :
    stripDataUri (String.mk (a ++ ',' :: b)) = String.mk b ∧
    stripDataUri t = t ∧
    (generate_restoration api_key (String.mk (a ++ ',' :: b)) options env).visionImagePayload
      = some (String.mk b) ∧
    (generate_restoration api_key t options env).visionImagePayload = some t ∧
    (∀ m, (generate_restoration api_key (String.mk (a ++ ',' :: b)) options
        env).origImageFile = some m → m = String.mk b) ∧
    (∀ i rt o rest p d, (generate_restoration api_key (String.mk (a ++ ',' :: b))
        options env).payload = Payload.ok i rt o rest p d → o = String.mk b) := by
  have hstrip : stripDataUri (String.mk (a ++ ',' :: b)) = String.mk b := by
    unfold stripDataUri
    rw [show (String.mk (a ++ ',' :: b)).data = a ++ ',' :: b from rfl,
      hasComma_append_comma a b, afterFirstComma_append a b ha]
    simp
  have hid : stripDataUri t = t := by
    unfold stripDataUri
    rw [ht]
    simp
  refine ⟨hstrip, hid, ?_, ?_, ?_, ?_⟩
  · rw [visionImagePayload_eq, hstrip]
  · rw [visionImagePayload_eq, hid]
  · intro m hm
    rw [origImageFile_eq api_key _ options env m hm, hstrip]
  · intro i rt o rest p d hp
    have := (payload_ok_fields api_key _ options env i rt o rest p d hp).2.2
    rw [this, hstrip]

/-- Witness for C10 at a concrete data-URI string and a concrete
comma-free string. -/
theorem data_uri_comma_split_witness :
    hasComma ("data:image/jpeg;base64".data) = false ∧
    hasComma ("payload".data) = false ∧
    (stripDataUri (String.mk ("data:image/jpeg;base64".data ++ ',' :: "abc".data))
        = String.mk ("abc".data) ∧
      stripDataUri "payload" = "payload" ∧
      (generate_restoration OPENAI_API_KEY
          (String.mk ("data:image/jpeg;base64".data ++ ',' :: "abc".data)) [] envC9).visionImagePayload
        = some (String.mk ("abc".data)) ∧
      (generate_restoration OPENAI_API_KEY "payload" [] envC9).visionImagePayload
        = some "payload" ∧
      (∀ m, (generate_restoration OPENAI_API_KEY
          (String.mk ("data:image/jpeg;base64".data ++ ',' :: "abc".data)) []
          envC9).origImageFile = some m → m = String.mk ("abc".data)) ∧
      (∀ i rt o rest p d, (generate_restoration OPENAI_API_KEY
          (String.mk ("data:image/jpeg;base64".data ++ ',' :: "abc".data)) []
          envC9).payload = Payload.ok i rt o rest p d → o = String.mk ("abc".data))) :=
  ⟨by decide, by decide,
    data_uri_comma_split OPENAI_API_KEY [] envC9 ("data:image/jpeg;base64".data)
      ("abc".data) "payload" (by decide) (by decide)⟩

end Derelict
